/-
Verification of the toeic-recommender core logic.

The repository is a Python service; its core modules
(`app/logic/similarity.py`, `app/logic/core_recommend.py`,
`app/logic/cold_start.py`) are shallowly embedded here.

Python values are modelled by an inductive `PyVal` (None, bool, number,
string, list, dict with string keys).  Numbers are modelled by `ℚ`.
Code that can raise a Python exception is modelled in `Except Unit`;
`Except.error ()` stands for any raised exception (all of the claims
below only distinguish "raises" from "returns", never which exception).
Python `==` is modelled by structural equality on `PyVal` (the Python
quirk that `True == 1` across types is not modelled; ids in this code
are strings).
-/
import Mathlib

/-- A Python value, as handled by the untyped recommender code.
Dict keys are strings (all dicts in this code are JSON-shaped). -/
inductive PyVal where
  | none
  | bool (b : Bool)
  | num (q : ℚ)
  | str (s : String)
  | list (xs : List PyVal)
  | dict (entries : List (String × PyVal))

/- Structural Boolean equality on `PyVal`, modelling Python `==`
(ids in this code are strings; numeric cross-type equality such as
`True == 1` is not modelled). -/
mutual
def PyVal.beq : PyVal → PyVal → Bool
  | .none, .none => true
  | .bool a, .bool b => a == b
  | .num a, .num b => a == b
  | .str a, .str b => a == b
  | .list xs, .list ys => PyVal.beqList xs ys
  | .dict es, .dict fs => PyVal.beqDict es fs
  | _, _ => false
def PyVal.beqList : List PyVal → List PyVal → Bool
  | [], [] => true
  | x :: xs, y :: ys => PyVal.beq x y && PyVal.beqList xs ys
  | _, _ => false
def PyVal.beqDict : List (String × PyVal) → List (String × PyVal) → Bool
  | [], [] => true
  | (k, v) :: es, (l, w) :: fs => k == l && PyVal.beq v w && PyVal.beqDict es fs
  | _, _ => false
end

mutual
theorem PyVal.beq_refl : ∀ a : PyVal, PyVal.beq a a = true
  | .none => rfl
  | .bool b => by simp [PyVal.beq]
  | .num q => by simp [PyVal.beq]
  | .str s => by simp [PyVal.beq]
  | .list xs => by simpa [PyVal.beq] using PyVal.beqList_refl xs
  | .dict es => by simpa [PyVal.beq] using PyVal.beqDict_refl es
theorem PyVal.beqList_refl : ∀ xs : List PyVal, PyVal.beqList xs xs = true
  | [] => rfl
  | x :: xs => by simp [PyVal.beqList, PyVal.beq_refl x, PyVal.beqList_refl xs]
theorem PyVal.beqDict_refl : ∀ es : List (String × PyVal), PyVal.beqDict es es = true
  | [] => rfl
  | (k, v) :: es => by simp [PyVal.beqDict, PyVal.beq_refl v, PyVal.beqDict_refl es]
end

mutual
theorem PyVal.eq_of_beq : ∀ a b : PyVal, PyVal.beq a b = true → a = b
  | .none, .none, _ => rfl
  | .bool a, .bool b, h => by simpa [PyVal.beq] using h
  | .num a, .num b, h => by simpa [PyVal.beq] using h
  | .str a, .str b, h => by simpa [PyVal.beq] using h
  | .list xs, .list ys, h => by
      have := PyVal.eqList_of_beq xs ys (by simpa [PyVal.beq] using h)
      rw [this]
  | .dict es, .dict fs, h => by
      have := PyVal.eqDict_of_beq es fs (by simpa [PyVal.beq] using h)
      rw [this]
  | .none, .bool _, h => by simp [PyVal.beq] at h
  | .none, .num _, h => by simp [PyVal.beq] at h
  | .none, .str _, h => by simp [PyVal.beq] at h
  | .none, .list _, h => by simp [PyVal.beq] at h
  | .none, .dict _, h => by simp [PyVal.beq] at h
  | .bool _, .none, h => by simp [PyVal.beq] at h
  | .bool _, .num _, h => by simp [PyVal.beq] at h
  | .bool _, .str _, h => by simp [PyVal.beq] at h
  | .bool _, .list _, h => by simp [PyVal.beq] at h
  | .bool _, .dict _, h => by simp [PyVal.beq] at h
  | .num _, .none, h => by simp [PyVal.beq] at h
  | .num _, .bool _, h => by simp [PyVal.beq] at h
  | .num _, .str _, h => by simp [PyVal.beq] at h
  | .num _, .list _, h => by simp [PyVal.beq] at h
  | .num _, .dict _, h => by simp [PyVal.beq] at h
  | .str _, .none, h => by simp [PyVal.beq] at h
  | .str _, .bool _, h => by simp [PyVal.beq] at h
  | .str _, .num _, h => by simp [PyVal.beq] at h
  | .str _, .list _, h => by simp [PyVal.beq] at h
  | .str _, .dict _, h => by simp [PyVal.beq] at h
  | .list _, .none, h => by simp [PyVal.beq] at h
  | .list _, .bool _, h => by simp [PyVal.beq] at h
  | .list _, .num _, h => by simp [PyVal.beq] at h
  | .list _, .str _, h => by simp [PyVal.beq] at h
  | .list _, .dict _, h => by simp [PyVal.beq] at h
  | .dict _, .none, h => by simp [PyVal.beq] at h
  | .dict _, .bool _, h => by simp [PyVal.beq] at h
  | .dict _, .num _, h => by simp [PyVal.beq] at h
  | .dict _, .str _, h => by simp [PyVal.beq] at h
  | .dict _, .list _, h => by simp [PyVal.beq] at h
theorem PyVal.eqList_of_beq : ∀ xs ys : List PyVal, PyVal.beqList xs ys = true → xs = ys
  | [], [], _ => rfl
  | [], _ :: _, h => by simp [PyVal.beqList] at h
  | _ :: _, [], h => by simp [PyVal.beqList] at h
  | x :: xs, y :: ys, h => by
      simp only [PyVal.beqList, Bool.and_eq_true] at h
      rw [PyVal.eq_of_beq x y h.1, PyVal.eqList_of_beq xs ys h.2]
theorem PyVal.eqDict_of_beq : ∀ es fs : List (String × PyVal), PyVal.beqDict es fs = true → es = fs
  | [], [], _ => rfl
  | [], _ :: _, h => by simp [PyVal.beqDict] at h
  | _ :: _, [], h => by simp [PyVal.beqDict] at h
  | (k, v) :: es, (l, w) :: fs, h => by
      simp only [PyVal.beqDict, Bool.and_eq_true, beq_iff_eq] at h
      rw [h.1.1, PyVal.eq_of_beq v w h.1.2, PyVal.eqDict_of_beq es fs h.2]
end

instance : DecidableEq PyVal := fun a b =>
  decidable_of_iff (PyVal.beq a b = true)
    ⟨PyVal.eq_of_beq a b, fun h => h ▸ PyVal.beq_refl a⟩

/-- Python truthiness: `bool(v)`. -/
def PyVal.truthy : PyVal → Bool
  | .none => false
  | .bool b => b
  | .num q => decide (q ≠ 0)
  | .str s => decide (s ≠ "")
  | .list xs => !xs.isEmpty
  | .dict es => !es.isEmpty

/-- First binding of key `k` in a dict entry list (Python dicts have
unique keys, so first = only). -/
def PyVal.dlookup (es : List (String × PyVal)) (k : String) : Option PyVal :=
  List.lookup k es

/-- `d.get(k, default)` on a value known to be a dict. -/
def PyVal.getD (es : List (String × PyVal)) (k : String) (dflt : PyVal) : PyVal :=
  (PyVal.dlookup es k).getD dflt

/-- Coerce a Python value used in arithmetic to a rational:
numbers are themselves, `bool` is 0/1 (Python bool is an int);
anything else raises `TypeError`. -/
def PyVal.toNum : PyVal → Except Unit ℚ
  | .num q => .ok q
  | .bool b => .ok (if b then 1 else 0)
  | _ => .error ()

/-- Whether a Python value can be used as a dict key (hashable).
Lists and dicts are unhashable and raise `TypeError` when used as keys. -/
def PyVal.hashable : PyVal → Bool
  | .list _ => false
  | .dict _ => false
  | _ => true

/- ===================== similarity.py ===================== -/

/-- The four fields required by `calculate_user_similarity`
(similarity.py line 22). -/
def requiredFields : List String :=
  ["target", "averageListeningScore", "averageReadingScore", "averageTotalScore"]

/-- Python `k in v` for a string `k`: key membership for dicts, value
membership for lists, substring for strings; raises `TypeError` on
non-containers. -/
def pyContains (v : PyVal) (k : String) : Except Unit Bool :=
  match v with
  | .dict es => .ok (PyVal.dlookup es k).isSome
  | .list xs => .ok (decide (PyVal.str k ∈ xs))
  | .str s => .ok (decide (k.data <:+: s.data))
  | _ => .error ()

/-- `[field for field in fields if field not in u]`
(similarity.py lines 23-24). -/
def missingFields (u : PyVal) : List String → Except Unit (List String)
  | [] => .ok []
  | f :: fs =>
    match pyContains u f with
    | .error e => .error e
    | .ok true => missingFields u fs
    | .ok false =>
      match missingFields u fs with
      | .error e => .error e
      | .ok rest => .ok (f :: rest)

/-- `u.get(k, 0)` where `u` must be a dict (`.get` on a non-dict raises
`AttributeError`), followed by use of the result in arithmetic. -/
def getNumField (u : PyVal) (k : String) : Except Unit ℚ :=
  match u with
  | .dict es => (PyVal.getD es k (.num 0)).toNum
  | _ => .error ()

/-- The four numeric profile fields of one user, extracted as in
similarity.py lines 32-35 (target, listening, reading, total).  All
extraction failures collapse to the same `Except.error`, so grouping
the eight `.get` calls per profile does not change the result. -/
def profileNums (u : PyVal) : Except Unit (ℚ × ℚ × ℚ × ℚ) :=
  match getNumField u "target" with
  | .error e => .error e
  | .ok t =>
    match getNumField u "averageListeningScore" with
    | .error e => .error e
    | .ok l =>
      match getNumField u "averageReadingScore" with
      | .error e => .error e
      | .ok r =>
        match getNumField u "averageTotalScore" with
        | .error e => .error e
        | .ok s => .ok (t, l, r, s)

/-- Body of `calculate_user_similarity` inside its `try:` block
(similarity.py lines 20-54).  Note the deliberate cross-comparison:
user1's listening is compared with user2's reading and vice versa. -/
def simCore (u1 u2 : PyVal) : Except Unit ℚ :=
  match missingFields u1 requiredFields with
  | .error e => .error e
  | .ok m1 =>
    match missingFields u2 requiredFields with
    | .error e => .error e
    | .ok m2 =>
      if m1 ≠ [] ∨ m2 ≠ [] then .ok (1/10)
      else
        match profileNums u1 with
        | .error e => .error e
        | .ok (t1, l1, r1, s1) =>
          match profileNums u2 with
          | .error e => .error e
          | .ok (t2, l2, r2, s2) =>
            let targetDiff := |t1 - t2|
            let listeningDiff := |l1 - r2|
            let readingDiff := |r1 - l2|
            let totalDiff := |s1 - s2|
            let normalizedDiffs : List ℚ :=
              [min 1 (targetDiff / 500), min 1 (listeningDiff / 300),
               min 1 (readingDiff / 300), min 1 (totalDiff / 300)]
            let avgNormalizedDiff := normalizedDiffs.sum / (normalizedDiffs.length : ℚ)
            .ok (max 0 (min 1 (1 - avgNormalizedDiff)))

/-- `calculate_user_similarity` (similarity.py lines 9-58): the
`except` handler turns any raised exception into `0.0`. -/
def calculate_user_similarity (u1 u2 : PyVal) : ℚ :=
  match simCore u1 u2 with
  | .ok q => q
  | .error _ => 0

/-- One iteration of the peer loop in `find_similar_users`
(similarity.py lines 96-115): skip non-dict profiles, skip a falsy
userId or the target's own userId, skip profiles missing any required
field, otherwise pair the peer's userId with its similarity to the
target.  `profile.get("userId")` defaults to `None`. -/
def processPeer (target targetId p : PyVal) : Option (PyVal × ℚ) :=
  match p with
  | .dict es =>
    let uid := PyVal.getD es "userId" .none
    if uid.truthy = false ∨ uid = targetId then Option.none
    else if requiredFields.all (fun f => (PyVal.dlookup es f).isSome) then
      some (uid, calculate_user_similarity target p)
    else Option.none
  | _ => Option.none

/-- `find_similar_users` (similarity.py lines 60-122): non-dict target
or non-list pool or falsy target userId give `[]`; otherwise the peer
pairs are sorted by similarity descending (stable, as `list.sort`) and
the first `n` are returned. -/
def find_similar_users (target allUsers : PyVal) (n : ℕ) : List (PyVal × ℚ) :=
  match target with
  | .dict tes =>
    match allUsers with
    | .list profiles =>
      let targetId := PyVal.getD tes "userId" .none
      if targetId.truthy then
        let sims := profiles.filterMap (processPeer (.dict tes) targetId)
        (sims.mergeSort (fun a b => decide (b.2 ≤ a.2))).take n
      else []
    | _ => []
  | _ => []

/- ===================== cold_start.py ===================== -/

/-- Iterating a Python value with `for`: lists yield their items,
strings their characters, dicts their keys; other values raise
`TypeError`. -/
def pyIter : PyVal → Except Unit (List PyVal)
  | .list xs => .ok xs
  | .str s => .ok (s.data.map (fun c => .str c.toString))
  | .dict es => .ok (es.map (fun kv => .str kv.1))
  | _ => .error ()

/-- `v[k]` with a string key: raises `KeyError` when the key is absent
and `TypeError` on non-dict values. -/
def pyGetItem (v : PyVal) (k : String) : Except Unit PyVal :=
  match v with
  | .dict es =>
    match PyVal.dlookup es k with
    | some w => .ok w
    | Option.none => .error ()
  | _ => .error ()

/-- `v[k]` followed by use in arithmetic or a numeric comparison. -/
def pyNumItem (v : PyVal) (k : String) : Except Unit ℚ :=
  match pyGetItem v k with
  | .error e => .error e
  | .ok w => w.toNum

/-- `[item["testId"] for item in items]` (cold_start.py line 95). -/
def collectTestIds : List PyVal → Except Unit (List PyVal)
  | [] => .ok []
  | it :: rest =>
    match pyGetItem it "testId" with
    | .error e => .error e
    | .ok v =>
      match collectTestIds rest with
      | .error e => .error e
      | .ok vs => .ok (v :: vs)

/-- `[test for test in test_candidates if test["testId"] not in
completed_test_ids]` (cold_start.py line 96). -/
def filterNotCompleted (completed : List PyVal) : List PyVal → Except Unit (List PyVal)
  | [] => .ok []
  | t :: rest =>
    match pyGetItem t "testId" with
    | .error e => .error e
    | .ok tid =>
      match filterNotCompleted completed rest with
      | .error e => .error e
      | .ok ts => .ok (if tid ∈ completed then ts else t :: ts)

/-- `user_profile.get("target", 500) // 100` (cold_start.py line 103):
Python floor division. -/
def targetDifficulty (pes : List (String × PyVal)) : Except Unit ℚ :=
  match (PyVal.getD pes "target" (.num 500)).toNum with
  | .error e => .error e
  | .ok q => .ok ((⌊q / 100⌋ : ℤ) : ℚ)

/-- `[t["totalUserAttempt"] for t in test_candidates]` as numbers. -/
def attemptNums : List PyVal → Except Unit (List ℚ)
  | [] => .ok []
  | t :: rest =>
    match pyNumItem t "totalUserAttempt" with
    | .error e => .error e
    | .ok q =>
      match attemptNums rest with
      | .error e => .error e
      | .ok qs => .ok (q :: qs)

/-- `max([t["totalUserAttempt"] for t in test_candidates]) if
test_candidates else 1` (cold_start.py line 108). -/
def maxTotalUserAttempt (candidates : List PyVal) : Except Unit ℚ :=
  match candidates with
  | [] => .ok 1
  | _ :: _ =>
    match attemptNums candidates with
    | .error e => .error e
    | .ok [] => .ok 1
    | .ok (q :: qs) => .ok (qs.foldl max q)

/-- One scored cold-start test record (the dict literal built at
cold_start.py lines 119-129), with its fixed keys as fields. -/
structure ScoredTest where
  id : PyVal
  name : PyVal
  score : ℚ
  already_taken : Bool
  attempts : ℚ
  avg_score : ℚ
  difficulty : PyVal
  topics : PyVal
  testId : PyVal
deriving DecidableEq

/-- Score one available test in the cold-start loop
(cold_start.py lines 106-129). -/
def scoreColdStartTest (candidates : List PyVal) (targetDiff : ℚ) (t : PyVal) :
    Except Unit ScoredTest :=
  match maxTotalUserAttempt candidates with
  | .error e => .error e
  | .ok maxAtt =>
    match pyNumItem t "totalUserAttempt" with
    | .error e => .error e
    | .ok tua =>
      let popularity_score := if 0 < maxAtt then tua / maxAtt else 0
      match pyNumItem t "difficulty" with
      | .error e => .error e
      | .ok diffNum =>
        let difficulty_diff := |diffNum - targetDiff| / 10
        let difficulty_score := 1 - min 1 difficulty_diff
        let combined_score := 0.7 * popularity_score + 0.3 * difficulty_score
        match pyGetItem t "testId" with
        | .error e => .error e
        | .ok tid =>
          match pyGetItem t "name" with
          | .error e => .error e
          | .ok nm =>
            match pyGetItem t "difficulty" with
            | .error e => .error e
            | .ok diffRaw =>
              match pyGetItem t "topics" with
              | .error e => .error e
              | .ok tops =>
                .ok { id := tid, name := nm, score := combined_score,
                      already_taken := false, attempts := 0, avg_score := 0,
                      difficulty := diffRaw, topics := tops, testId := tid }

/-- The cold-start scoring loop over the available tests. -/
def scoreColdStartTests (candidates : List PyVal) (targetDiff : ℚ) :
    List PyVal → Except Unit (List ScoredTest)
  | [] => .ok []
  | t :: rest =>
    match scoreColdStartTest candidates targetDiff t with
    | .error e => .error e
    | .ok st =>
      match scoreColdStartTests candidates targetDiff rest with
      | .error e => .error e
      | .ok sts => .ok (st :: sts)

/-- `recommend_cold_start_tests` (cold_start.py lines 80-135):
already-taken tests are filtered out of the candidates, the rest are
scored by `0.7*popularity + 0.3*difficultyMatch`, sorted by score
descending (stable) and truncated to `limit`.  A non-dict profile, a
history item without a `"testId"` key, or a candidate without the
required keys raises. -/
def recommend_cold_start_tests (profile : PyVal) (testCandidates : List PyVal)
    (limit : ℕ) : Except Unit (List ScoredTest) :=
  match profile with
  | .dict pes =>
    match pyIter (PyVal.getD pes "testHistory" (.list [])) with
    | .error e => .error e
    | .ok historyItems =>
      match collectTestIds historyItems with
      | .error e => .error e
      | .ok completed =>
        match filterNotCompleted completed testCandidates with
        | .error e => .error e
        | .ok available =>
          match targetDifficulty pes with
          | .error e => .error e
          | .ok targetDiff =>
            match scoreColdStartTests testCandidates targetDiff available with
            | .error e => .error e
            | .ok scored =>
              .ok ((scored.mergeSort (fun a b => decide (b.score ≤ a.score))).take limit)
  | _ => .error ()

/- ===================== core_recommend.py ===================== -/

/-- `len(test_history)` after the `testHistory` shape check of
core_recommend.py lines 35-38 (non-list values count as zero). -/
def historyLen (es : List (String × PyVal)) : ℕ :=
  match PyVal.getD es "testHistory" (.list []) with
  | .list xs => xs.length
  | _ => 0

/-- `len(learning_progress)` after the `learningProgress` shape check of
core_recommend.py lines 40-43 (non-dict values count as zero keys). -/
def progressKeyCount (es : List (String × PyVal)) : ℕ :=
  match PyVal.getD es "learningProgress" (.dict []) with
  | .dict kvs => kvs.length
  | _ => 0

/-- `is_cold_start_user` continued (core_recommend.py lines 30-47):
a non-dict profile is cold start; otherwise cold start means fewer than
2 history entries and fewer than 3 learning-progress keys. -/
def is_cold_start_user (u : PyVal) : Bool :=
  match u with
  | .dict es => decide (historyLen es < 2 ∧ progressKeyCount es < 3)
  | _ => true

/-- Scan of `topic_stats` in `get_topic_deficiency`
(core_recommend.py lines 259-274): skip non-dict items; the first item
whose `topicName` (default `""`) equals the topic decides the result. -/
def topicDeficiencyScan (topic : PyVal) (desiredRate : ℚ) :
    List PyVal → Except Unit ℚ
  | [] => .ok (1/2)
  | it :: rest =>
    match it with
    | .dict es =>
      if PyVal.getD es "topicName" (.str "") = topic then
        match (PyVal.getD es "totalCorrect" (.num 0)).toNum with
        | .error e => .error e
        | .ok c =>
          match (PyVal.getD es "totalIncorrect" (.num 0)).toNum with
          | .error e => .error e
          | .ok i =>
            let total := c + i
            if 0 < total then .ok (max 0 (desiredRate - c / total))
            else .ok (1/2)
      else topicDeficiencyScan topic desiredRate rest
    | _ => topicDeficiencyScan topic desiredRate rest

/-- `get_topic_deficiency` (core_recommend.py lines 242-274); the
Python default for `desired_rate` is `0.8`. -/
def get_topic_deficiency (topic : PyVal) (topicStats : PyVal)
    (desiredRate : ℚ) : Except Unit ℚ :=
  match topicStats with
  | .list items => topicDeficiencyScan topic desiredRate items
  | _ => .ok (1/2)

/-- Attempt handling in `get_collaborative_score`
(core_recommend.py lines 344-348): no penalty for the first two
attempts, then a diminishing-returns curve floored at 0.4. -/
def attempt_factor (attempts : ℚ) : ℚ :=
  if attempts ≤ 2 then 1 else max 0.4 (1 - 0.15 * (attempts - 2))

/-- The mastery bonus (core_recommend.py lines 350-353): when the
normalized score exceeds 0.85 and attempts are at least 3, add
`min(0.3, 0.1*(attempts-2))` to the attempt factor. -/
def mastery_factor (normalized_score attempts : ℚ) : ℚ :=
  if 0.85 < normalized_score ∧ 3 ≤ attempts then
    attempt_factor attempts + min 0.3 (0.1 * (attempts - 2))
  else attempt_factor attempts

/-- `effective_score = normalized_score * attempt_factor`
(core_recommend.py line 356, with the bonus of lines 350-353 folded
into the factor). -/
def effective_score (normalized_score attempts : ℚ) : ℚ :=
  normalized_score * mastery_factor normalized_score attempts

/-- Building `user_data_map` (core_recommend.py lines 303-306):
each dict user with a `"userId"` key is inserted keyed by that id;
an unhashable id value raises `TypeError`. -/
def buildUserMap : List PyVal → Except Unit (List (PyVal × PyVal))
  | [] => .ok []
  | u :: us =>
    match u with
    | .dict es =>
      match PyVal.dlookup es "userId" with
      | some uid =>
        if uid.hashable then
          match buildUserMap us with
          | .error e => .error e
          | .ok m => .ok ((uid, .dict es) :: m)
        else .error ()
      | Option.none => buildUserMap us
    | _ => buildUserMap us

/-- `user_data_map.get(uid)`: later insertions overwrite earlier ones,
so the lookup finds the last binding; an unhashable key raises. -/
def userMapGet (m : List (PyVal × PyVal)) (uid : PyVal) :
    Except Unit (Option PyVal) :=
  if uid.hashable then
    .ok ((m.reverse.find? (fun kv => decide (kv.1 = uid))).map (fun kv => kv.2))
  else .error ()

/-- Scan a neighbor's `testHistory` for the first record whose testId
(`"testId"` falling back to `"test_id"`, default `""`) equals the
candidate id; return its effective score
(core_recommend.py lines 323-361). -/
def scanTestHistory (candidateId : PyVal) : List PyVal → Except Unit (Option ℚ)
  | [] => .ok Option.none
  | r :: rest =>
    match r with
    | .dict res =>
      if PyVal.getD res "testId" (PyVal.getD res "test_id" (.str "")) = candidateId then
        match (PyVal.getD res "avgScore" (PyVal.getD res "averageScore"
                (PyVal.getD res "avg_score" (.num 0)))).toNum with
        | .error e => .error e
        | .ok avgScore =>
          match (PyVal.getD res "attempt" (PyVal.getD res "attempts"
                  (PyVal.getD res "attemptCount" (.num 0)))).toNum with
          | .error e => .error e
          | .ok attempts => .ok (some (effective_score (avgScore / 990) attempts))
      else scanTestHistory candidateId rest
    | _ => scanTestHistory candidateId rest

/-- Search `learning_progress.get("items", [])` for the first dict item
containing the candidate id as a key (core_recommend.py lines 377-380).
Only a string candidate id can equal a (string) dict key. -/
def findProgressInItems (candidateId : PyVal) : List PyVal → Option PyVal
  | [] => Option.none
  | it :: rest =>
    match it with
    | .dict es =>
      match candidateId with
      | .str s =>
        match PyVal.dlookup es s with
        | some v => some v
        | Option.none => findProgressInItems candidateId rest
      | _ => findProgressInItems candidateId rest
    | _ => findProgressInItems candidateId rest

/-- The `items` fallback container (core_recommend.py line 377):
iterating a non-list works for strings and dicts (whose elements are
strings, hence never matching dict items) and raises otherwise. -/
def scanProgressItems (candidateId : PyVal) (itemsVal : PyVal) :
    Except Unit (Option PyVal) :=
  match itemsVal with
  | .list xs => .ok (findProgressInItems candidateId xs)
  | .str _ => .ok Option.none
  | .dict _ => .ok Option.none
  | _ => .error ()

/-- `progress_data` resolution (core_recommend.py lines 371-380):
direct key access when `candidate_id in learning_progress`, else the
nested `items` scan.  An unhashable candidate id raises in the `in`
check; a hashable non-string id never equals a string key. -/
def lectureProgressValue (candidateId : PyVal) (lpes : List (String × PyVal)) :
    Except Unit (Option PyVal) :=
  match candidateId with
  | .list _ => .error ()
  | .dict _ => .error ()
  | .str s =>
    match PyVal.dlookup lpes s with
    | some v => .ok (some v)
    | Option.none => scanProgressItems candidateId (PyVal.getD lpes "items" (.list []))
  | _ => scanProgressItems candidateId (PyVal.getD lpes "items" (.list []))

/-- Completion from a truthy `progress_data`
(core_recommend.py lines 382-391): a dict uses its `percent` field
(default 0), a number is used directly (a Python bool is an int), both
clamped above by 100 and divided by 100; other truthy shapes are
skipped. A falsy `progress_data` contributes nothing. -/
def lectureCompletion (pd : PyVal) : Except Unit (Option ℚ) :=
  if pd.truthy then
    match pd with
    | .dict es =>
      match (PyVal.getD es "percent" (.num 0)).toNum with
      | .error e => .error e
      | .ok perc => .ok (some (min perc 100 / 100))
    | .num q => .ok (some (min q 100 / 100))
    | .bool b => .ok (some (min (if b then 1 else 0) 100 / 100))
    | _ => .ok Option.none
  else .ok Option.none

/-- The body of the neighbor loop in `get_collaborative_score`
(core_recommend.py lines 310-394) for one neighbor id: the unweighted
contribution (`effective_score` for tests, completion for lectures),
`none` when the neighbor is skipped or matches nothing. -/
def neighborContribution (candidateId : PyVal) (candidateType : String)
    (userMap : List (PyVal × PyVal)) (uid : PyVal) : Except Unit (Option ℚ) :=
  match userMapGet userMap uid with
  | .error e => .error e
  | .ok Option.none => .ok Option.none
  | .ok (some profile) =>
    match profile with
    | .dict pes =>
      if candidateType = "test" then
        match PyVal.getD pes "testHistory" (.list []) with
        | .list records => scanTestHistory candidateId records
        | _ => .ok Option.none
      else if candidateType = "lecture" then
        match PyVal.getD pes "learningProgress" (.dict []) with
        | .dict lpes =>
          match lectureProgressValue candidateId lpes with
          | .error e => .error e
          | .ok Option.none => .ok Option.none
          | .ok (some pd) => lectureCompletion pd
        | _ => .ok Option.none
      else .ok Option.none
    | _ => .ok Option.none

/-- The accumulation loop of `get_collaborative_score`
(core_recommend.py lines 308-394): `score += similarity * contribution`
and `count += 1` for every matching neighbor. -/
def collabFold (candidateId : PyVal) (candidateType : String)
    (userMap : List (PyVal × PyVal)) :
    List (PyVal × ℚ) → ℚ → ℕ → Except Unit (ℚ × ℕ)
  | [], score, count => .ok (score, count)
  | (uid, sim) :: rest, score, count =>
    match neighborContribution candidateId candidateType userMap uid with
    | .error e => .error e
    | .ok Option.none => collabFold candidateId candidateType userMap rest score count
    | .ok (some c) =>
      collabFold candidateId candidateType userMap rest (score + sim * c) (count + 1)

/-- `get_collaborative_score` (core_recommend.py lines 276-396):
0 for an empty neighbor list, falsy candidate id or non-list profile
pool; otherwise the similarity-weighted sum over matching neighbors
divided by `max(1, count)`. -/
def get_collaborative_score (candidateId : PyVal)
    (similarUsers : List (PyVal × ℚ)) (allUsers : PyVal)
    (candidateType : String) : Except Unit ℚ :=
  if similarUsers.isEmpty || !candidateId.truthy then .ok 0
  else
    match allUsers with
    | .list users =>
      match buildUserMap users with
      | .error e => .error e
      | .ok m =>
        match collabFold candidateId candidateType m similarUsers 0 0 with
        | .error e => .error e
        | .ok (score, count) => .ok (score / max 1 (count : ℚ))
    | _ => .ok 0

/-- `target_user_profile.get("userId")` (similarity.py line 81), the id
excluded from every `find_similar_users` result. -/
def targetUserId : PyVal → PyVal
  | .dict tes => PyVal.getD tes "userId" .none
  | _ => .none

/-- Whether a `topic_stats` item matches the topic
(core_recommend.py lines 260-262): it must be a dict whose
`topicName` (default `""`) equals the topic. -/
def topicMatches (topic : PyVal) (it : PyVal) : Bool :=
  match it with
  | .dict es => decide (PyVal.getD es "topicName" (.str "") = topic)
  | _ => false

/-- Concrete test-candidate fixture used by the C9 witness. -/
def wTestCandidate : PyVal :=
  .dict [("testId", .str "t2"), ("name", .str "T2"), ("difficulty", .num 5),
         ("topics", .list []), ("totalUserAttempt", .num 5)]

/-- Concrete profile-entry fixture (one taken test, id "t1") used by
the C9 witness. -/
def wProfileEntries : List (String × PyVal) :=
  [("testHistory", .list [.dict [("testId", .str "t1")]])]

/- ===================== theorems ===================== -/

/-- The attempt factor with the mastery bonus applied never exceeds
0.95: for attempts ≥ 3 the base factor is at most 0.85 and the bonus
at most 0.3, and their sum is maximal at attempts = 3. -/
theorem mastery_factor_le (ns a : ℚ) (hns : 0.85 < ns) (ha : 3 ≤ a) :
    mastery_factor ns a ≤ 0.95 := by
  unfold mastery_factor attempt_factor
  rw [if_pos ⟨hns, ha⟩, if_neg (by linarith)]
  rcases le_total (0.4 : ℚ) (1 - 0.15 * (a - 2)) with h | h <;>
    rcases le_total (0.3 : ℚ) (0.1 * (a - 2)) with h2 | h2 <;>
      simp only [max_eq_right h, max_eq_left h, min_eq_left h2, min_eq_right h2] <;>
        linarith

/-- The mastery bonus is strictly positive when it applies. -/
theorem mastery_factor_gt (ns a : ℚ) (hns : 0.85 < ns) (ha : 3 ≤ a) :
    attempt_factor a < mastery_factor ns a := by
  unfold mastery_factor
  rw [if_pos ⟨hns, ha⟩]
  have h : (0 : ℚ) < min 0.3 (0.1 * (a - 2)) := lt_min (by norm_num) (by linarith)
  linarith

/-- C1 counterexample: no neighbor test record with
normalizedScore > 0.85 and attempts ≥ 3 gives an attempt factor above
1.0 — the mastery bonus never pushes the factor past 0.95. -/
theorem C1_counterexample :
    ¬ ∃ ns a : ℚ, 0.85 < ns ∧ 3 ≤ a ∧ 1 < mastery_factor ns a := by
  rintro ⟨ns, a, hns, ha, hgt⟩
  have h := mastery_factor_le ns a hns ha
  have : (0.95 : ℚ) < 1 := by norm_num
  linarith

/-- C1 (amended): for every neighbor test record with
normalizedScore > 0.85 and attempts ≥ 3, the mastery bonus strictly
increases the attempt factor above the penalty-only factor, but the
resulting factor is at most 0.95 (never above 1.0), so
`effectiveScore = normalizedScore * factor` never exceeds
normalizedScore. -/
theorem C1_mastery_bonus_bounded (ns a : ℚ) (hns : 0.85 < ns) (ha : 3 ≤ a) :
    attempt_factor a < mastery_factor ns a ∧
    mastery_factor ns a ≤ 0.95 ∧
    effective_score ns a ≤ ns := by
  refine ⟨mastery_factor_gt ns a hns ha, mastery_factor_le ns a hns ha, ?_⟩
  have h := mastery_factor_le ns a hns ha
  have hns0 : (0 : ℚ) ≤ ns := by linarith
  have h1 : mastery_factor ns a ≤ 1 := by linarith
  calc ns * mastery_factor ns a ≤ ns * 1 := by
        exact mul_le_mul_of_nonneg_left h1 hns0
    _ = ns := mul_one ns

/-- Witness for C1 at normalizedScore 0.9, attempts 3. -/
theorem C1_mastery_bonus_bounded_witness :
    attempt_factor 3 < mastery_factor 0.9 3 ∧
    mastery_factor 0.9 3 ≤ 0.95 ∧
    effective_score 0.9 3 ≤ 0.9 :=
  C1_mastery_bonus_bounded 0.9 3 (by norm_num) (by norm_num)

/-- C3: the cold-start test recommender raises (a `KeyError`) on a
profile whose `testHistory` contains a record without a `"testId"`
key, contradicting the spec's "missing fields degrade gracefully to
defaults/neutral values, never raise". -/
theorem C3_cold_start_raises_on_malformed_history :
    recommend_cold_start_tests
      (.dict [("userId", .str "u1"), ("testHistory", .list [.dict []])])
      [] 5 = .error () := rfl

/-- C6: `isColdStart(profile)` is true iff the profile is not a dict,
or both the effective testHistory length (wrong shapes counting as
zero) is below 2 and the effective learningProgress key count is below
3; in particular it is true for a profile with empty testHistory and
empty learningProgress, and for a non-dict profile. -/
theorem C6_cold_start_characterization :
    (∀ u : PyVal, is_cold_start_user u = true ↔
      ((∀ es, u ≠ PyVal.dict es) ∨
       (∃ es, u = PyVal.dict es ∧ historyLen es < 2 ∧ progressKeyCount es < 3))) ∧
    is_cold_start_user
      (.dict [("testHistory", .list []), ("learningProgress", .dict [])]) = true ∧
    is_cold_start_user (.str "not a profile") = true := by
  refine ⟨fun u => ?_, by decide, rfl⟩
  cases u <;> simp [is_cold_start_user]

/-- The topic-stats scan returns the neutral 0.5 when no item matches
the topic. -/
theorem topicDeficiencyScan_absent (topic : PyVal) (rate : ℚ) :
    ∀ stats : List PyVal, stats.find? (topicMatches topic) = Option.none →
      topicDeficiencyScan topic rate stats = .ok (1/2)
  | [], _ => rfl
  | it :: rest, h => by
    rw [List.find?_cons] at h
    cases hit : topicMatches topic it with
    | true => rw [hit] at h; exact absurd h (by simp)
    | false =>
      rw [hit] at h
      cases it with
      | dict es =>
        have hne : ¬ PyVal.getD es "topicName" (.str "") = topic := by
          simpa [topicMatches] using hit
        simpa [topicDeficiencyScan, hne] using
          topicDeficiencyScan_absent topic rate rest h
      | none => simpa [topicDeficiencyScan] using topicDeficiencyScan_absent topic rate rest h
      | bool b => simpa [topicDeficiencyScan] using topicDeficiencyScan_absent topic rate rest h
      | num q => simpa [topicDeficiencyScan] using topicDeficiencyScan_absent topic rate rest h
      | str s => simpa [topicDeficiencyScan] using topicDeficiencyScan_absent topic rate rest h
      | list xs => simpa [topicDeficiencyScan] using topicDeficiencyScan_absent topic rate rest h

/-- The topic-stats scan is decided by the first matching item. -/
theorem topicDeficiencyScan_found (topic : PyVal) (rate : ℚ) :
    ∀ (stats : List PyVal) (es : List (String × PyVal)) (c i : ℚ),
      stats.find? (topicMatches topic) = some (.dict es) →
      (PyVal.getD es "totalCorrect" (.num 0)).toNum = .ok c →
      (PyVal.getD es "totalIncorrect" (.num 0)).toNum = .ok i →
      topicDeficiencyScan topic rate stats =
        if 0 < c + i then .ok (max 0 (rate - c / (c + i))) else .ok (1/2)
  | [], es, c, i, h, _, _ => by simp at h
  | it :: rest, es, c, i, h, hc, hi => by
    rw [List.find?_cons] at h
    cases hit : topicMatches topic it with
    | true =>
      rw [hit] at h
      simp only [Option.some.injEq] at h
      subst h
      have heq : PyVal.getD es "topicName" (.str "") = topic := by
        simpa [topicMatches] using hit
      simp only [topicDeficiencyScan, heq, if_pos, hc, hi]
    | false =>
      rw [hit] at h
      cases it with
      | dict fs =>
        have hne : ¬ PyVal.getD fs "topicName" (.str "") = topic := by
          simpa [topicMatches] using hit
        simpa [topicDeficiencyScan, hne] using
          topicDeficiencyScan_found topic rate rest es c i h hc hi
      | none => simpa [topicDeficiencyScan] using topicDeficiencyScan_found topic rate rest es c i h hc hi
      | bool b => simpa [topicDeficiencyScan] using topicDeficiencyScan_found topic rate rest es c i h hc hi
      | num q => simpa [topicDeficiencyScan] using topicDeficiencyScan_found topic rate rest es c i h hc hi
      | str s => simpa [topicDeficiencyScan] using topicDeficiencyScan_found topic rate rest es c i h hc hi
      | list xs => simpa [topicDeficiencyScan] using topicDeficiencyScan_found topic rate rest es c i h hc hi

/-- C7: for every topic and topicStats list, `get_topic_deficiency`
returns exactly 0.5 when no entry matches the topic, and the first
matching entry decides the result: 0.5 when its recorded attempts sum
to zero, and `max(0, desiredRate - totalCorrect/(totalCorrect +
totalIncorrect))` when at least one attempt is recorded (the Python
default for desiredRate is 0.8; the theorem covers every rate). -/
theorem C7_topic_deficiency (topic : PyVal) (stats : List PyVal) (rate : ℚ) :
    (stats.find? (topicMatches topic) = Option.none →
      get_topic_deficiency topic (.list stats) rate = .ok (1/2)) ∧
    (∀ es c i, stats.find? (topicMatches topic) = some (.dict es) →
      (PyVal.getD es "totalCorrect" (.num 0)).toNum = .ok c →
      (PyVal.getD es "totalIncorrect" (.num 0)).toNum = .ok i →
      (c + i = 0 → get_topic_deficiency topic (.list stats) rate = .ok (1/2)) ∧
      (0 < c + i →
        get_topic_deficiency topic (.list stats) rate =
          .ok (max 0 (rate - c / (c + i))))) := by
  constructor
  · intro h
    simpa [get_topic_deficiency] using topicDeficiencyScan_absent topic rate stats h
  · intro es c i h hc hi
    have hmain := topicDeficiencyScan_found topic rate stats es c i h hc hi
    constructor
    · intro hzero
      rw [get_topic_deficiency, hmain, if_neg (by rw [hzero]; exact lt_irrefl 0)]
    · intro hpos
      rw [get_topic_deficiency, hmain, if_pos hpos]

/-- Witness for C7: an absent topic on one side, and a matched topic
with three correct and one incorrect answer on the other. -/
theorem C7_topic_deficiency_witness :
    get_topic_deficiency (.str "x") (.list []) (4/5) = .ok (1/2) ∧
    get_topic_deficiency (.str "gram")
      (.list [.dict [("topicName", .str "gram"), ("totalCorrect", .num 3),
                     ("totalIncorrect", .num 1)]]) (4/5) =
      .ok (max 0 (4/5 - 3 / (3 + 1))) := by
  constructor
  · exact (C7_topic_deficiency (.str "x") [] (4/5)).1 rfl
  · exact ((C7_topic_deficiency (.str "gram")
      [.dict [("topicName", .str "gram"), ("totalCorrect", .num 3),
              ("totalIncorrect", .num 1)]] (4/5)).2
      [("topicName", .str "gram"), ("totalCorrect", .num 3),
       ("totalIncorrect", .num 1)] 3 1 (by decide) rfl rfl).2 (by norm_num)

/-- C2 counterexample: a profile with all four required fields but
different listening (400) and reading (100) averages has
self-similarity 1/2, not 1 — the deliberate cross-comparison pits the
profile's own listening against its own reading. -/
theorem C2_counterexample :
    calculate_user_similarity
      (.dict [("target", .num 600), ("averageListeningScore", .num 400),
              ("averageReadingScore", .num 100), ("averageTotalScore", .num 500)])
      (.dict [("target", .num 600), ("averageListeningScore", .num 400),
              ("averageReadingScore", .num 100), ("averageTotalScore", .num 500)])
      ≠ 1 := by
  have hm : missingFields
      (.dict [("target", .num 600), ("averageListeningScore", .num 400),
              ("averageReadingScore", .num 100), ("averageTotalScore", .num 500)])
      requiredFields = .ok [] := rfl
  have hn : profileNums
      (.dict [("target", .num 600), ("averageListeningScore", .num 400),
              ("averageReadingScore", .num 100), ("averageTotalScore", .num 500)])
      = .ok (600, 400, 100, 500) := rfl
  unfold calculate_user_similarity simCore
  rw [hm, hn]
  have e1 : |(600 : ℚ) - 600| = 0 := by simp
  have e2 : |(400 : ℚ) - 100| = 300 := by
    rw [abs_of_nonneg (by norm_num : (0 : ℚ) ≤ 400 - 100)]; norm_num
  have e3 : |(100 : ℚ) - 400| = 300 := by
    rw [abs_of_nonpos (by norm_num : (100 : ℚ) - 400 ≤ 0)]; norm_num
  have e4 : |(500 : ℚ) - 500| = 0 := by simp
  simp only [e1, e2, e3, e4, List.sum_cons, List.sum_nil, List.length_cons,
    List.length_nil]
  norm_num

/-- C2 (amended): `similarity(A,A) = 1` when A has all four required
fields with numeric values and its averageListeningScore equals its
averageReadingScore. -/
theorem C2_self_similarity (u : PyVal) (t l r s : ℚ)
    (hm : missingFields u requiredFields = .ok [])
    (hn : profileNums u = .ok (t, l, r, s))
    (hlr : l = r) :
    calculate_user_similarity u u = 1 := by
  unfold calculate_user_similarity simCore
  rw [hm, hn]
  simp [hlr]

/-- Witness for C2 at a profile with equal listening and reading. -/
theorem C2_self_similarity_witness :
    calculate_user_similarity
      (.dict [("target", .num 600), ("averageListeningScore", .num 300),
              ("averageReadingScore", .num 300), ("averageTotalScore", .num 500)])
      (.dict [("target", .num 600), ("averageListeningScore", .num 300),
              ("averageReadingScore", .num 300), ("averageTotalScore", .num 500)])
      = 1 :=
  C2_self_similarity _ 600 300 300 500 rfl rfl rfl

/-- C5: `similarity(A,B) = similarity(B,A)` for every pair of values:
swapping the arguments swaps which cross-diff plays which role
(A's listening vs B's reading and vice versa), but the set of four
clamped normalized diffs, hence their mean and the final similarity,
is identical; the missing-field (0.1) and exception (0.0) paths are
symmetric as well. -/
theorem C5_similarity_symmetric (u1 u2 : PyVal) :
    calculate_user_similarity u1 u2 = calculate_user_similarity u2 u1 := by
  unfold calculate_user_similarity simCore
  cases h1 : missingFields u1 requiredFields with
  | error e =>
    cases h2 : missingFields u2 requiredFields with
    | error e2 => rfl
    | ok m2 => rfl
  | ok m1 =>
    cases h2 : missingFields u2 requiredFields with
    | error e2 => rfl
    | ok m2 =>
      dsimp only
      by_cases hm : m1 ≠ [] ∨ m2 ≠ []
      · rw [if_pos hm, if_pos (Or.symm hm)]
      · rw [if_neg hm, if_neg (fun h => hm (Or.symm h))]
        cases p1 : profileNums u1 with
        | error e =>
          cases p2 : profileNums u2 with
          | error e2 => rfl
          | ok v2 => obtain ⟨t2, l2, r2, s2⟩ := v2; rfl
        | ok v1 =>
          obtain ⟨t1, l1, r1, s1⟩ := v1
          cases p2 : profileNums u2 with
          | error e2 => rfl
          | ok v2 =>
            obtain ⟨t2, l2, r2, s2⟩ := v2
            simp only [List.sum_cons, List.sum_nil, List.length_cons,
              List.length_nil]
            rw [abs_sub_comm t2 t1, abs_sub_comm l2 r1, abs_sub_comm r2 l1,
              abs_sub_comm s2 s1]
            ring_nf

/-- When every neighbor contributes nothing, the accumulation loop
leaves score and count unchanged. -/
theorem collabFold_of_no_match (cid : PyVal) (ty : String)
    (m : List (PyVal × PyVal)) :
    ∀ (sims : List (PyVal × ℚ)),
      (∀ p ∈ sims, neighborContribution cid ty m p.1 = .ok Option.none) →
      ∀ s c, collabFold cid ty m sims s c = .ok (s, c)
  | [], _, _, _ => rfl
  | (uid, sim) :: rest, h, s, c => by
    have huid := h (uid, sim) (List.mem_cons_self _ _)
    simp only [collabFold, huid]
    exact collabFold_of_no_match cid ty m rest
      (fun p hp => h p (List.mem_cons_of_mem _ hp)) s c

/-- C8: for every candidate id, neighbor list and profile pool, if no
neighbor has a matching interaction with the candidate (its per-
neighbor scan yields no contribution), the collaborative score is
exactly 0 — the final division is by `max(1, matchCount)`, so the
result is defined, not an error. -/
theorem C8_zero_match_collaborative (cid : PyVal) (sims : List (PyVal × ℚ))
    (users : List PyVal) (ty : String) (m : List (PyVal × PyVal))
    (hm : buildUserMap users = .ok m)
    (hnone : ∀ p ∈ sims, neighborContribution cid ty m p.1 = .ok Option.none) :
    get_collaborative_score cid (sims) (.list users) ty = .ok 0 := by
  unfold get_collaborative_score
  by_cases hempty : (sims.isEmpty || !cid.truthy) = true
  · rw [if_pos hempty]
  · rw [if_neg hempty]
    dsimp only
    rw [hm]
    dsimp only
    rw [collabFold_of_no_match cid ty m sims hnone 0 0]
    norm_num

/-- Witness for C8: one neighbor, an empty profile pool (the neighbor
cannot be found, so nothing matches), candidate type "test". -/
theorem C8_zero_match_collaborative_witness :
    get_collaborative_score (.str "t1") [(.str "u1", 1/2)] (.list []) "test"
      = .ok 0 :=
  C8_zero_match_collaborative (.str "t1") [(.str "u1", 1/2)] [] "test" [] rfl
    (fun p hp => by
      rcases List.mem_singleton.mp hp with rfl
      rfl)

/-- A peer pair produced by the peer loop never carries the target's
userId (the loop `continue`s when `user_id == target_user_id`). -/
theorem processPeer_fst_ne (t tid p : PyVal) (x : PyVal × ℚ)
    (h : processPeer t tid p = some x) : x.1 ≠ tid := by
  cases p with
  | dict es =>
    unfold processPeer at h
    dsimp only at h
    split_ifs at h with h1 h2
    simp only [Option.some.injEq] at h
    subst h
    push_neg at h1
    exact h1.2
  | none => exact absurd h (by simp [processPeer])
  | bool b => exact absurd h (by simp [processPeer])
  | num q => exact absurd h (by simp [processPeer])
  | str s => exact absurd h (by simp [processPeer])
  | list xs => exact absurd h (by simp [processPeer])

/-- Shape of `first n of a descending stable sort`: bounded length,
descending scores, and membership in the unsorted list. -/
theorem take_mergeSort_shape (sims : List (PyVal × ℚ)) (n : ℕ) :
    ((sims.mergeSort (fun a b => decide (b.2 ≤ a.2))).take n).length ≤ n ∧
    List.Pairwise (fun a b : PyVal × ℚ => b.2 ≤ a.2)
      ((sims.mergeSort (fun a b => decide (b.2 ≤ a.2))).take n) ∧
    ∀ x ∈ (sims.mergeSort (fun a b => decide (b.2 ≤ a.2))).take n, x ∈ sims := by
  refine ⟨List.length_take_le n _, ?_, ?_⟩
  · have hs := @List.sorted_mergeSort (PyVal × ℚ)
      (fun a b : PyVal × ℚ => decide (b.2 ≤ a.2))
      (fun a b c hab hbc => by
        simp only [decide_eq_true_eq] at *
        exact le_trans hbc hab)
      (fun a b => by
        rcases le_total a.2 b.2 with h | h <;> simp [h])
      sims
    have hs2 : List.Pairwise (fun a b : PyVal × ℚ => b.2 ≤ a.2)
        (sims.mergeSort (fun a b => decide (b.2 ≤ a.2))) :=
      hs.imp (fun h => by simpa using h)
    exact hs2.sublist (List.take_sublist n _)
  · intro x hx
    exact (List.mem_mergeSort).mp ((List.take_sublist n _).subset hx)

/-- C4 counterexample: with a peer pool holding the same complete
profile twice (userId "u"), `findSimilarUsers` returns the userId "u"
twice — the result is not deduplicated. -/
theorem C4_counterexample :
    ¬ (List.map Prod.fst (find_similar_users
        (.dict [("userId", .str "t")])
        (.list [.dict [("userId", .str "u"), ("target", .num 600),
                       ("averageListeningScore", .num 400),
                       ("averageReadingScore", .num 100),
                       ("averageTotalScore", .num 500)],
                .dict [("userId", .str "u"), ("target", .num 600),
                       ("averageListeningScore", .num 400),
                       ("averageReadingScore", .num 100),
                       ("averageTotalScore", .num 500)]]) 5)).Nodup := by
  have h : find_similar_users
      (.dict [("userId", .str "t")])
      (.list [.dict [("userId", .str "u"), ("target", .num 600),
                     ("averageListeningScore", .num 400),
                     ("averageReadingScore", .num 100),
                     ("averageTotalScore", .num 500)],
              .dict [("userId", .str "u"), ("target", .num 600),
                     ("averageListeningScore", .num 400),
                     ("averageReadingScore", .num 100),
                     ("averageTotalScore", .num 500)]]) 5
      = (([((PyVal.str "u" : PyVal), (1 : ℚ)/10), (.str "u", 1/10)]).mergeSort
          (fun a b => decide (b.2 ≤ a.2))).take 5 := rfl
  rw [h, List.mergeSort_of_sorted (by simp)]
  simp

/-- C4 (amended): for every target, peer pool and n, the result of
`findSimilarUsers` is sorted descending by similarity score, never
contains the target's own userId, and has length at most n.  (It is
NOT deduplicated: a pool listing the same peer userId twice yields that
id twice.) -/
theorem C4_find_similar_users_shape (target allUsers : PyVal) (n : ℕ) :
    (find_similar_users target allUsers n).length ≤ n ∧
    List.Pairwise (fun a b : PyVal × ℚ => b.2 ≤ a.2)
      (find_similar_users target allUsers n) ∧
    ∀ x ∈ find_similar_users target allUsers n, x.1 ≠ targetUserId target := by
  cases target with
  | dict tes =>
    cases allUsers with
    | list profiles =>
      unfold find_similar_users
      dsimp only
      by_cases htr : (PyVal.getD tes "userId" PyVal.none).truthy = true
      · rw [if_pos htr]
        obtain ⟨hlen, hpair, hmem⟩ := take_mergeSort_shape
          (profiles.filterMap
            (processPeer (.dict tes) (PyVal.getD tes "userId" PyVal.none))) n
        refine ⟨hlen, hpair, fun x hx => ?_⟩
        obtain ⟨p, _, hp⟩ := List.mem_filterMap.mp (hmem x hx)
        simpa [targetUserId] using processPeer_fst_ne _ _ p x hp
      · rw [if_neg htr]
        simp
    | none => simp [find_similar_users]
    | bool b => simp [find_similar_users]
    | num q => simp [find_similar_users]
    | str s => simp [find_similar_users]
    | dict es => simp [find_similar_users]
  | none => simp [find_similar_users]
  | bool b => simp [find_similar_users]
  | num q => simp [find_similar_users]
  | str s => simp [find_similar_users]
  | list xs => simp [find_similar_users]

/-- On a dict, the required-field scan never raises and collects
exactly the fields without a binding. -/
theorem missingFields_dict (tes : List (String × PyVal)) :
    ∀ fs : List String, missingFields (.dict tes) fs =
      .ok (fs.filter (fun f => !(PyVal.dlookup tes f).isSome))
  | [] => rfl
  | f :: fs => by
    simp only [missingFields, pyContains]
    cases hf : (PyVal.dlookup tes f).isSome with
    | true =>
      rw [missingFields_dict tes fs]
      cases hl : PyVal.dlookup tes f with
      | none => rw [hl] at hf; simp at hf
      | some v => simp [List.filter_cons, hl]
    | false =>
      rw [missingFields_dict tes fs]
      cases hl : PyVal.dlookup tes f with
      | some v => rw [hl] at hf; simp at hf
      | none => simp [List.filter_cons, hl]

/-- A target missing a required field falls back to similarity 0.1
against every dict peer. -/
theorem calc_sim_incomplete_target (tes pes : List (String × PyVal))
    (hmiss : ∃ f ∈ requiredFields, PyVal.dlookup tes f = Option.none) :
    calculate_user_similarity (.dict tes) (.dict pes) = 1/10 := by
  unfold calculate_user_similarity simCore
  rw [missingFields_dict tes requiredFields, missingFields_dict pes requiredFields]
  dsimp only
  rw [if_pos ?hcond]
  case hcond =>
    obtain ⟨f, hf, hnone⟩ := hmiss
    exact Or.inl (List.ne_nil_of_mem (List.mem_filter.mpr ⟨hf, by simp [hnone]⟩))

/-- Under a target missing a required field, every pair produced by the
peer loop carries similarity exactly 0.1. -/
theorem processPeer_incomplete (tes : List (String × PyVal)) (tid p : PyVal)
    (x : PyVal × ℚ)
    (hmiss : ∃ f ∈ requiredFields, PyVal.dlookup tes f = Option.none)
    (h : processPeer (.dict tes) tid p = some x) : x.2 = 1/10 := by
  cases p with
  | dict pes =>
    unfold processPeer at h
    dsimp only at h
    split_ifs at h with h1 h2
    simp only [Option.some.injEq] at h
    subst h
    exact calc_sim_incomplete_target tes pes hmiss
  | none => exact absurd h (by simp [processPeer])
  | bool b => exact absurd h (by simp [processPeer])
  | num q => exact absurd h (by simp [processPeer])
  | str s => exact absurd h (by simp [processPeer])
  | list xs => exact absurd h (by simp [processPeer])

/-- C10: when the target profile has a truthy userId but lacks one of
the four required fields, `findSimilarUsers` does not return empty on
that account and does not skip peers: the peer pairs (one per valid
peer: a dict with a truthy, distinct userId and all four required
fields) all carry similarity exactly 0.1, the tie-stable sort keeps
them in input order, and the first n are returned. -/
theorem C10_incomplete_target (tes : List (String × PyVal))
    (profiles : List PyVal) (n : ℕ)
    (htr : (PyVal.getD tes "userId" PyVal.none).truthy = true)
    (hmiss : ∃ f ∈ requiredFields, PyVal.dlookup tes f = Option.none) :
    find_similar_users (.dict tes) (.list profiles) n =
      (profiles.filterMap
        (processPeer (.dict tes) (PyVal.getD tes "userId" PyVal.none))).take n ∧
    ∀ x ∈ profiles.filterMap
        (processPeer (.dict tes) (PyVal.getD tes "userId" PyVal.none)),
      x.2 = 1/10 := by
  have hall : ∀ x ∈ profiles.filterMap
      (processPeer (.dict tes) (PyVal.getD tes "userId" PyVal.none)),
      x.2 = 1/10 := by
    intro x hx
    obtain ⟨p, _, he⟩ := List.mem_filterMap.mp hx
    exact processPeer_incomplete tes _ p x hmiss he
  refine ⟨?_, hall⟩
  unfold find_similar_users
  dsimp only
  rw [if_pos htr, List.mergeSort_of_sorted]
  exact List.pairwise_of_forall_mem_list (fun a ha b hb => by
    rw [hall a ha, hall b hb]
    simp)

/-- Witness for C10: a target with only a userId and one complete peer
profile. -/
theorem C10_incomplete_target_witness :
    find_similar_users (.dict [("userId", .str "t")])
      (.list [.dict [("userId", .str "u"), ("target", .num 600),
                     ("averageListeningScore", .num 400),
                     ("averageReadingScore", .num 100),
                     ("averageTotalScore", .num 500)]]) 5 =
      (([.dict [("userId", .str "u"), ("target", .num 600),
                ("averageListeningScore", .num 400),
                ("averageReadingScore", .num 100),
                ("averageTotalScore", .num 500)]] : List PyVal).filterMap
        (processPeer (.dict [("userId", .str "t")])
          (PyVal.getD [("userId", .str "t")] "userId" PyVal.none))).take 5 ∧
    ∀ x ∈ ([.dict [("userId", .str "u"), ("target", .num 600),
                   ("averageListeningScore", .num 400),
                   ("averageReadingScore", .num 100),
                   ("averageTotalScore", .num 500)]] : List PyVal).filterMap
        (processPeer (.dict [("userId", .str "t")])
          (PyVal.getD [("userId", .str "t")] "userId" PyVal.none)),
      x.2 = 1/10 :=
  C10_incomplete_target [("userId", .str "t")] _ 5 rfl
    ⟨"target", by decide, rfl⟩

/-- Every test surviving the already-taken filter has a testId outside
the completed-id list. -/
theorem filterNotCompleted_mem (completed : List PyVal) :
    ∀ (cands avail : List PyVal),
      filterNotCompleted completed cands = .ok avail →
      ∀ t ∈ avail, ∃ tid, pyGetItem t "testId" = .ok tid ∧ tid ∉ completed
  | [], avail, h, t, ht => by
    simp only [filterNotCompleted, Except.ok.injEq] at h
    subst h
    exact absurd ht (by simp)
  | c :: rest, avail, h, t, ht => by
    unfold filterNotCompleted at h
    cases hc : pyGetItem c "testId" with
    | error e => rw [hc] at h; exact absurd h (by simp)
    | ok tid =>
      rw [hc] at h
      dsimp only at h
      cases hr : filterNotCompleted completed rest with
      | error e => rw [hr] at h; exact absurd h (by simp)
      | ok ts =>
        rw [hr] at h
        dsimp only at h
        simp only [Except.ok.injEq] at h
        subst h
        by_cases hmem : tid ∈ completed
        · rw [if_pos hmem] at ht
          exact filterNotCompleted_mem completed rest ts hr t ht
        · rw [if_neg hmem] at ht
          rcases List.mem_cons.mp ht with rfl | ht2
          · exact ⟨tid, hc, hmem⟩
          · exact filterNotCompleted_mem completed rest ts hr t ht2

/-- Every scored cold-start test comes from one of the available
tests. -/
theorem scoreColdStartTests_mem (cands : List PyVal) (td : ℚ) :
    ∀ (ts : List PyVal) (scored : List ScoredTest),
      scoreColdStartTests cands td ts = .ok scored →
      ∀ st ∈ scored, ∃ t ∈ ts, scoreColdStartTest cands td t = .ok st
  | [], scored, h, st, hst => by
    simp only [scoreColdStartTests, Except.ok.injEq] at h
    subst h
    exact absurd hst (by simp)
  | t :: rest, scored, h, st, hst => by
    unfold scoreColdStartTests at h
    cases h1 : scoreColdStartTest cands td t with
    | error e => rw [h1] at h; exact absurd h (by simp)
    | ok s1 =>
      rw [h1] at h
      dsimp only at h
      cases h2 : scoreColdStartTests cands td rest with
      | error e => rw [h2] at h; exact absurd h (by simp)
      | ok ss =>
        rw [h2] at h
        dsimp only at h
        simp only [Except.ok.injEq] at h
        subst h
        rcases List.mem_cons.mp hst with rfl | hst2
        · exact ⟨t, List.mem_cons_self _ _, h1⟩
        · obtain ⟨t2, ht2, hs2⟩ := scoreColdStartTests_mem cands td rest ss h2 st hst2
          exact ⟨t2, List.mem_cons_of_mem _ ht2, hs2⟩

/-- A scored cold-start record's `testId` field is exactly the
candidate's `"testId"` value. -/
theorem scoreColdStartTest_testId (cands : List PyVal) (td : ℚ) (t : PyVal)
    (st : ScoredTest) (h : scoreColdStartTest cands td t = .ok st) :
    pyGetItem t "testId" = .ok st.testId := by
  unfold scoreColdStartTest at h
  cases h1 : maxTotalUserAttempt cands with
  | error e => rw [h1] at h; exact absurd h (by simp)
  | ok maxAtt =>
    rw [h1] at h
    dsimp only at h
    cases h2 : pyNumItem t "totalUserAttempt" with
    | error e => rw [h2] at h; exact absurd h (by simp)
    | ok tua =>
      rw [h2] at h
      dsimp only at h
      cases h3 : pyNumItem t "difficulty" with
      | error e => rw [h3] at h; exact absurd h (by simp)
      | ok diffNum =>
        rw [h3] at h
        dsimp only at h
        cases h4 : pyGetItem t "testId" with
        | error e => rw [h4] at h; exact absurd h (by simp)
        | ok tid =>
          rw [h4] at h
          dsimp only at h
          cases h5 : pyGetItem t "name" with
          | error e => rw [h5] at h; exact absurd h (by simp)
          | ok nm =>
            rw [h5] at h
            dsimp only at h
            cases h6 : pyGetItem t "difficulty" with
            | error e => rw [h6] at h; exact absurd h (by simp)
            | ok diffRaw =>
              rw [h6] at h
              dsimp only at h
              cases h7 : pyGetItem t "topics" with
              | error e => rw [h7] at h; exact absurd h (by simp)
              | ok tops =>
                rw [h7] at h
                dsimp only at h
                simp only [Except.ok.injEq] at h
                subst h
                rfl

/-- C9: for every profile and candidate pool, when the cold-start test
recommender returns a result, no returned test's testId appears among
the testIds of the profile's testHistory (already-attempted tests are
removed from the candidate set before scoring, not merely ranked
lower). -/
theorem C9_cold_start_excludes_taken (pes : List (String × PyVal))
    (cands : List PyVal) (limit : ℕ) (res : List ScoredTest)
    (hist ids : List PyVal)
    (hh : pyIter (PyVal.getD pes "testHistory" (.list [])) = .ok hist)
    (hids : collectTestIds hist = .ok ids)
    (hres : recommend_cold_start_tests (.dict pes) cands limit = .ok res) :
    ∀ st ∈ res, st.testId ∉ ids := by
  unfold recommend_cold_start_tests at hres
  dsimp only at hres
  rw [hh] at hres
  dsimp only at hres
  rw [hids] at hres
  dsimp only at hres
  cases hav : filterNotCompleted ids cands with
  | error e => rw [hav] at hres; exact absurd hres (by simp)
  | ok avail =>
    rw [hav] at hres
    dsimp only at hres
    cases htd : targetDifficulty pes with
    | error e => rw [htd] at hres; exact absurd hres (by simp)
    | ok td =>
      rw [htd] at hres
      dsimp only at hres
      cases hsc : scoreColdStartTests cands td avail with
      | error e => rw [hsc] at hres; exact absurd hres (by simp)
      | ok scored =>
        rw [hsc] at hres
        dsimp only at hres
        simp only [Except.ok.injEq] at hres
        subst hres
        intro st hst
        have hst2 : st ∈ scored :=
          List.mem_mergeSort.mp ((List.take_sublist _ _).subset hst)
        obtain ⟨t, ht, hscore⟩ :=
          scoreColdStartTests_mem cands td avail scored hsc st hst2
        obtain ⟨tid, htid, hnotin⟩ :=
          filterNotCompleted_mem ids cands avail hav t ht
        have hid := scoreColdStartTest_testId cands td t st hscore
        rw [hid] at htid
        simp only [Except.ok.injEq] at htid
        rw [htid]
        exact hnotin

/-- Witness for C9: with one taken test ("t1") in the history and one
fresh candidate ("t2"), the recommender returns exactly the fresh
test, whose testId is not among the taken ids. -/
theorem C9_cold_start_excludes_taken_witness :
    (⟨.str "t2", .str "T2", 1, false, 0, 0, .num 5, .list [],
      .str "t2"⟩ : ScoredTest).testId ∉ [PyVal.str "t1"] := by
  have hsc : scoreColdStartTest [wTestCandidate] 5 wTestCandidate =
      .ok ⟨.str "t2", .str "T2", 1, false, 0, 0, .num 5, .list [], .str "t2"⟩ := by
    have hmax : maxTotalUserAttempt [wTestCandidate] = .ok 5 := rfl
    have htua : pyNumItem wTestCandidate "totalUserAttempt" = .ok 5 := rfl
    have hdiff : pyNumItem wTestCandidate "difficulty" = .ok 5 := rfl
    have hid : pyGetItem wTestCandidate "testId" = .ok (.str "t2") := rfl
    have hnm : pyGetItem wTestCandidate "name" = .ok (.str "T2") := rfl
    have hdr : pyGetItem wTestCandidate "difficulty" = .ok (.num 5) := rfl
    have htp : pyGetItem wTestCandidate "topics" = .ok (.list []) := rfl
    unfold scoreColdStartTest
    rw [hmax]; dsimp only
    rw [htua]; dsimp only
    rw [hdiff]; dsimp only
    rw [hid]; dsimp only
    rw [hnm]; dsimp only
    rw [hdr]; dsimp only
    rw [htp]; dsimp only
    simp only [Except.ok.injEq, ScoredTest.mk.injEq, and_true, true_and]
    rw [if_pos (show (0:ℚ) < 5 by norm_num),
      show |(5:ℚ) - 5| = 0 from by simp,
      show min (1:ℚ) (0/10) = 0 from by
        rw [min_eq_right (by norm_num : (0:ℚ)/10 ≤ 1)]; norm_num]
    norm_num
  have hscl : scoreColdStartTests [wTestCandidate] 5 [wTestCandidate] =
      .ok [⟨.str "t2", .str "T2", 1, false, 0, 0, .num 5, .list [], .str "t2"⟩] := by
    unfold scoreColdStartTests
    rw [hsc]
    rfl
  have htd : targetDifficulty wProfileEntries = .ok 5 := by
    have h : targetDifficulty wProfileEntries = .ok ((⌊(500:ℚ)/100⌋ : ℤ) : ℚ) := rfl
    rw [h]; norm_num
  have hres : recommend_cold_start_tests (.dict wProfileEntries) [wTestCandidate] 5 =
      .ok [⟨.str "t2", .str "T2", 1, false, 0, 0, .num 5, .list [], .str "t2"⟩] := by
    unfold recommend_cold_start_tests
    dsimp only
    rw [show pyIter (PyVal.getD wProfileEntries "testHistory" (.list [])) =
        .ok [.dict [("testId", .str "t1")]] from rfl]
    dsimp only
    rw [show collectTestIds [.dict [("testId", .str "t1")]] = .ok [.str "t1"] from rfl]
    dsimp only
    rw [show filterNotCompleted [.str "t1"] [wTestCandidate] = .ok [wTestCandidate] from rfl]
    dsimp only
    rw [htd]
    dsimp only
    rw [hscl]
    dsimp only
    rw [List.mergeSort_of_sorted (List.pairwise_singleton _ _)]
    rfl
  exact C9_cold_start_excludes_taken wProfileEntries [wTestCandidate] 5
    [⟨.str "t2", .str "T2", 1, false, 0, 0, .num 5, .list [], .str "t2"⟩]
    [.dict [("testId", .str "t1")]] [.str "t1"] rfl rfl hres
    ⟨.str "t2", .str "T2", 1, false, 0, 0, .num 5, .list [], .str "t2"⟩
    (List.mem_singleton_self _)
